import Mathlib

/-!
Shallow embedding of the real-time interaction core of the
launchpad-shortcut-deck repository: LED color model, write deduplication,
the boot / shutdown / blink animations, the busy registry, the gesture
decoder and the periodic state-sync loop.  Every definition mirrors the
corresponding JavaScript source file; machine time is modelled with `Nat`
(milliseconds on the monotonic clock) and colors with pairs of `Nat`.
-/

/-- Color tuple [r, g], two small bounded intensities (led-colors.js). -/
abbrev Color := Nat × Nat

namespace COLORS

/-- COLORS.off from led-colors.js. -/
def off : Color := (0, 0)

/-- COLORS.red from led-colors.js. -/
def red : Color := (3, 0)

/-- COLORS.dimRed from led-colors.js. -/
def dimRed : Color := (1, 0)

/-- COLORS.green from led-colors.js. -/
def green : Color := (0, 3)

/-- COLORS.dimGreen from led-colors.js. -/
def dimGreen : Color := (0, 1)

/-- COLORS.amber from led-colors.js. -/
def amber : Color := (3, 3)

/-- COLORS.yellow from led-colors.js. -/
def yellow : Color := (2, 3)

/-- COLORS.yellowBright from led-colors.js. -/
def yellowBright : Color := (3, 2)

end COLORS

/-- encodeColor from color-encoder.js: pack [r, g] into a MIDI velocity,
with the special case that exact off maps to velocity 0.  The JS clamp of
negative channels is vacuous over `Nat`, and the `| 0` truncations are
identities on integers. -/
def encodeColor (c : Color) : Nat :=
  if c.1 = 0 ∧ c.2 = 0 then 0
  else 12 + (min c.2 3) * 16 + min c.1 3

/-- The logical LED states of states.js. -/
inductive LedState where
  | UNASSIGNED
  | ASSIGNED_STOPPED
  | RUNNING_BACKGROUND
  | RUNNING_FOCUSED
  | MINIMIZED
  | LAUNCHING
  | FOCUSING
  | MINIMIZING
  | QUITTING
  | ERROR
deriving DecidableEq, Repr

/-- LedStateColors from states.js: the total state to color mapping. -/
def LedStateColors : LedState → Color
  | .UNASSIGNED => COLORS.off
  | .ASSIGNED_STOPPED => COLORS.dimRed
  | .RUNNING_BACKGROUND => COLORS.dimGreen
  | .RUNNING_FOCUSED => COLORS.green
  | .MINIMIZED => COLORS.amber
  | .LAUNCHING => COLORS.green
  | .FOCUSING => COLORS.green
  | .MINIMIZING => COLORS.yellowBright
  | .QUITTING => COLORS.red
  | .ERROR => COLORS.red

/-- stateToColor from led-state-machine.js.  Over the `LedState` inductive
every key of the mapping is present and holds a valid 2-tuple, so the
UNASSIGNED fallback branch of the source is unreachable and the function
coincides with the mapping. -/
def stateToColor (s : LedState) : Color := LedStateColors s

/-!
## Write traces and deduplication

A write trace is the list of (padId, value) arguments passed to setPad of
the device port, in order.  Several components dedupe writes against a
per-pad cache of the last value written (the map named last in runPhase of
boot-animation.js, lastVel in the MIDI adapter, lastColorByPad in the sync
loop); `dedupRun` is that common mechanism: it returns the updated cache
together with the writes actually issued.  The caches compare values
(in runPhase the compared references are the two fixed frozen tuples of
the phase, so reference comparison agrees with value comparison there).
-/

/-- The subsequence of values written to one pad by a trace. -/
def writesTo {α : Type} (q : Nat) (ws : List (Nat × α)) : List α :=
  (ws.filter (fun w => w.1 == q)).map Prod.snd

/-- Filter a write list through a per-pad last-value cache: a write is
issued only when it differs from the cached value for its pad, and it then
updates the cache.  Returns the final cache and the issued writes. -/
def dedupRun {α : Type} [DecidableEq α] :
    (Nat → Option α) → List (Nat × α) → (Nat → Option α) × List (Nat × α)
  | last, [] => (last, [])
  | last, (p, c) :: rest =>
    if last p = some c then dedupRun last rest
    else
      ((dedupRun (fun q => if q = p then some c else last q) rest).1,
        (p, c) :: (dedupRun (fun q => if q = p then some c else last q) rest).2)

/-- Scalar shape of the dedup cache, for a single pad: drop the values
equal to the previously kept value (or to the initial cached value). -/
def dedupAgainst {α : Type} [DecidableEq α] : Option α → List α → List α
  | _, [] => []
  | last, c :: rest =>
    if last = some c then dedupAgainst last rest
    else c :: dedupAgainst (some c) rest


/-!
## Animation write traces

Each animation is modelled by the trace of setPad calls it makes on the
device port.  Timer callbacks observe real elapsed times, so the tick
instants of a wave phase are a parameter (any list of elapsed times);
`tickTimes` is the drift-free ideal schedule at the 45 ms tick interval
used by runPhase of boot-animation.js.
-/

/-- Pad group index used for the wave stagger (id & 7 in runPhase). -/
def groupOf (id : Nat) : Nat := id % 8

/-- Per-tick color choice of runPhase: the phase fraction
((t + groupOf(id)*staggerMs) mod periodMs) / periodMs is below one half
exactly when twice the remainder is below the period. -/
def chosenColor (dimCol brightCol : Color) (periodMs staggerMs t id : Nat) : Color :=
  if 2 * ((t + groupOf id * staggerMs) % periodMs) < periodMs then brightCol else dimCol

/-- Ideal tick instants of one phase: 0, 45, 90, ... strictly below the
phase duration. -/
def tickTimes (durationMs : Nat) : List Nat :=
  (List.range ((durationMs + 44) / 45)).map (fun k => k * 45)

/-- The colors runPhase computes for every tick and pad, in program order,
before deduplication. -/
def runPhaseSchedule (dimCol brightCol : Color) (periodMs staggerMs : Nat)
    (pads : List Nat) (ticks : List Nat) : List (Nat × Color) :=
  ticks.flatMap (fun t =>
    pads.map (fun id => (id, chosenColor dimCol brightCol periodMs staggerMs t id)))

/-- The setPad calls one runPhase invocation makes: the schedule filtered
through the phase-local dedup map (const last = new Map()), which starts
empty.  Each setPad call is individually wrapped in try/catch, and the
dedup map is updated before the call, so the trace does not depend on
which calls fail. -/
def runPhaseWrites (dimCol brightCol : Color) (periodMs staggerMs : Nat)
    (pads : List Nat) (ticks : List Nat) : List (Nat × Color) :=
  (dedupRun (fun _ => none)
    (runPhaseSchedule dimCol brightCol periodMs staggerMs pads ticks)).2

/-- The solid green hold written after the two boot phases. -/
def bootHoldWrites (pads : List Nat) : List (Nat × Color) :=
  pads.map (fun id => (id, COLORS.green))

/-- The finally-block of playBootAnimation: force every target pad off. -/
def bootCleanupWrites (pads : List Nat) : List (Nat × Color) :=
  pads.map (fun id => (id, COLORS.off))

/-- The try-block body of playBootAnimation: yellow wave phase, green wave
phase, then the solid green hold. -/
def bootBodyWrites (pads ticksA ticksB : List Nat) : List (Nat × Color) :=
  runPhaseWrites COLORS.yellow COLORS.yellowBright 300 45 pads ticksA
    ++ runPhaseWrites COLORS.dimGreen COLORS.green 300 45 pads ticksB
    ++ bootHoldWrites pads

/-- Complete error-free trace of playBootAnimation (boot-animation.js):
empty when no pads resolve, otherwise body followed by the cleanup that
the finally block always runs. -/
def playBootAnimationWrites (pads ticksA ticksB : List Nat) : List (Nat × Color) :=
  if pads.isEmpty then []
  else bootBodyWrites pads ticksA ticksB ++ bootCleanupWrites pads

/-- Trace of playBootAnimation when an error interrupts the try-block
after truncAt writes: the catch swallows it and the finally block still
runs the cleanup.  A truncAt no smaller than the body length gives the
error-free trace. -/
def playBootAnimationWritesTrunc (pads ticksA ticksB : List Nat) (truncAt : Nat) :
    List (Nat × Color) :=
  if pads.isEmpty then []
  else (bootBodyWrites pads ticksA ticksB).take truncAt ++ bootCleanupWrites pads

/-- Insert a pad into an ascending list (helper for `sortPads`). -/
def insertSorted (a : Nat) : List Nat → List Nat
  | [] => [a]
  | b :: l => if a ≤ b then a :: b :: l else b :: insertSorted a l

/-- The stable ascending numeric sort pads.slice().sort((a, b) => a - b)
used by playShutdownAnimation to fix the sweep order. -/
def sortPads : List Nat → List Nat
  | [] => []
  | a :: l => insertSorted a (sortPads l)

/-- The fixed trail palette of playShutdownAnimation
(shutdown-animations.js), brightest first. -/
def TRAIL : List Color := [COLORS.yellowBright, COLORS.yellow, COLORS.amber, COLORS.dimRed]

/-- Writes of one ripple step: the head pad gets TRAIL[0], the pads at
offsets 1..effTrail-1 behind it get the dimmer trail colors, and the pad
that just left the trail window is turned off.  Out-of-range indices
(negative in JS, or past the end of order) issue nothing. -/
def shutdownStepWrites (order : List Nat) (effTrail i : Nat) : List (Nat × Color) :=
  ((order.get? i).toList.map (fun h => (h, COLORS.yellowBright)))
    ++ ((List.range (effTrail - 1)).filterMap (fun t0 =>
          if t0 + 1 ≤ i then
            (order.get? (i - (t0 + 1))).map
              (fun pad => (pad, TRAIL.getD (t0 + 1) COLORS.off))
          else none))
    ++ (if effTrail ≤ i then
          (order.get? (i - effTrail)).toList.map (fun pad => (pad, COLORS.off))
        else [])

/-- Writes of one full sweep: order.length + effTrail steps. -/
def shutdownPassWrites (order : List Nat) (effTrail : Nat) : List (Nat × Color) :=
  (List.range (order.length + effTrail)).flatMap (shutdownStepWrites order effTrail)

/-- Complete error-free trace of playShutdownAnimation: the guard returns
early on an empty pad list; otherwise the passes sweep the sorted order
and the final loop forces every pad off. -/
def playShutdownAnimationWrites (pads : List Nat) (trail passes : Nat) :
    List (Nat × Color) :=
  if pads.isEmpty then []
  else
    ((List.range passes).flatMap (fun _ =>
        shutdownPassWrites (sortPads pads) (max 1 (min trail TRAIL.length))))
      ++ (sortPads pads).map (fun id => (id, COLORS.off))

/-- Trace of one blinkQuit invocation (led-animator.js): numTicks timer
callbacks each write the on color or off alternately (on first), then the
cancel path — reached on completion, external cancellation, or
stopAnimation — writes a final off.  Every write is wrapped, so failures
do not change the trace. -/
def blinkQuitWrites (note : Nat) (color : Color) (numTicks : Nat) : List (Nat × Color) :=
  ((List.range numTicks).map (fun i => (note, if i % 2 = 0 then color else COLORS.off)))
    ++ [(note, COLORS.off)]

/-- Execute a write trace against a device port on which some setPad calls
throw (fails i is true when the i-th call throws).  When wrapped is true
every call sits in its own try/catch, so all writes are attempted and no
error escapes; when wrapped is false (the shutdown ripple) the first
throwing call aborts the remaining writes and the error propagates, which
the Bool result records. -/
def runWrites (wrapped : Bool) (fails : Nat → Bool) :
    List (Nat × Color) → Nat → List (Nat × Color) × Bool
  | [], _ => ([], false)
  | w :: ws, i =>
    if !wrapped && fails i then ([w], true)
    else ((runWrites wrapped fails ws (i + 1)).1.cons w,
          (runWrites wrapped fails ws (i + 1)).2)

/-- playBootAnimation under a write-failure oracle: every setPad call in
its phases, hold and cleanup is individually wrapped. -/
def playBootAnimationRun (pads ticksA ticksB : List Nat) (fails : Nat → Bool) :
    List (Nat × Color) × Bool :=
  runWrites true fails (playBootAnimationWrites pads ticksA ticksB) 0

/-- blinkQuit under a write-failure oracle: every setPad call is wrapped. -/
def blinkQuitRun (note : Nat) (color : Color) (numTicks : Nat) (fails : Nat → Bool) :
    List (Nat × Color) × Bool :=
  runWrites true fails (blinkQuitWrites note color numTicks) 0

/-- playShutdownAnimation under a write-failure oracle: none of its setPad
calls (ripple steps or final off sweep) is wrapped in try/catch, so a
throwing call aborts the animation and rejects its promise. -/
def playShutdownAnimationRun (pads : List Nat) (trail passes : Nat) (fails : Nat → Bool) :
    List (Nat × Color) × Bool :=
  runWrites false fails (playShutdownAnimationWrites pads trail passes) 0

/-- setPad of the LaunchpadJulusian adapter (midi adapter source): encode
each color to a velocity, then skip writes whose velocity equals the
cached last velocity for the pad.  Models the messages actually sent. -/
def portSetPadRun (lastVel : Nat → Option Nat) (ws : List (Nat × Color)) :
    (Nat → Option Nat) × List (Nat × Nat) :=
  dedupRun lastVel (ws.map (fun w => (w.1, encodeColor w.2 &&& 127)))

/-!
## Busy registry (busy-registry.js)

The registry maps padIds to monotonic expiry timestamps.  The monotonic
clock reading at each call is passed explicitly.
-/

/-- The busyPads map: padId to untilTimestamp. -/
def BusyMap := Nat → Option Nat

/-- The int32 wrap performed by the JS bitwise or with 0: an integer is
reduced modulo 2 to the 32 into the range from minus 2 to the 31 up to
2 to the 31 excluded. -/
def toInt32 (n : Int) : Int := (n + 2 ^ 31) % 2 ^ 32 - 2 ^ 31

/-- markBusy: the guard ms > 0 is checked on the raw duration; for a
positive one the busy window of the pad is overwritten with
now + max(1, ms | 0), where the bitwise or wraps the duration to int32
(so a duration of at least 2 to the 31 wraps, is clamped by the max to 1,
and stores a one millisecond window).  Otherwise do nothing. -/
def markBusy (m : BusyMap) (nowTs padId : Nat) (ms : Int) : BusyMap :=
  if 0 < ms then
    fun p => if p = padId then some (nowTs + (max 1 (toInt32 ms)).toNat) else m p
  else m

/-- isBusy: false when absent; when the deadline has passed, lazily delete
the entry and report false; otherwise true. -/
def isBusy (m : BusyMap) (nowTs padId : Nat) : Bool × BusyMap :=
  match m padId with
  | none => (false, m)
  | some untilTs =>
    if untilTs < nowTs then (false, fun p => if p = padId then none else m p)
    else (true, m)

/-!
## Gesture decoder (gesture-decoder.js)

All per-pad state lives in maps keyed by padId.  An armed long-press
timer is represented by its deadline; on the single-threaded event loop a
timer whose deadline is at or before the next observed event fires before
that event is handled, which `stepTimed` reproduces.
-/

/-- A recognized gesture kind. -/
inductive GestureKind where
  | SinglePress
  | DoubleTap
  | LongPress
deriving DecidableEq, Repr

/-- An emitted gesture event. -/
structure GestureEvent where
  pad : Nat
  kind : GestureKind
deriving DecidableEq, Repr

/-- Decoder state: the four timing tunables and the four per-pad maps. -/
structure GestureDecoder where
  doubleTapMs : Nat
  longPressMs : Nat
  bounceMs : Nat
  cooldownMs : Nat
  lastUpByPad : Nat → Option Nat
  lastEmitByPad : Nat → Option Nat
  downAt : Nat → Option Nat
  longTimers : Nat → Option Nat

/-- A freshly constructed decoder: empty maps. -/
def GestureDecoder.init (doubleTapMs longPressMs bounceMs cooldownMs : Nat) :
    GestureDecoder :=
  ⟨doubleTapMs, longPressMs, bounceMs, cooldownMs,
    fun _ => none, fun _ => none, fun _ => none, fun _ => none⟩

/-- onDown: record the down timestamp and replace any pending long-press
timer with one due at now + longPressMs. -/
def GestureDecoder.onDown (d : GestureDecoder) (padId t : Nat) : GestureDecoder :=
  { d with
    downAt := fun p => if p = padId then some t else d.downAt p
    longTimers := fun p => if p = padId then some (t + d.longPressMs) else d.longTimers p }

/-- The long-press timer callback for one pad, fired only when a timer is
armed and due at time t: delete the timer and emit LongPress. -/
def GestureDecoder.fireLongTimer (d : GestureDecoder) (padId t : Nat) :
    GestureDecoder × List GestureEvent :=
  match d.longTimers padId with
  | some deadline =>
    if deadline ≤ t then
      ({ d with longTimers := fun p => if p = padId then none else d.longTimers p },
        [⟨padId, .LongPress⟩])
    else (d, [])
  | none => (d, [])

/-- onUp: drop the down timestamp; discard bounces and releases with no
recorded down; discard when the long-press timer already fired; otherwise
cancel the timer, apply the optional cooldown, decide double against the
previous release (the JS lastUp || 0 guard treats a timestamp of exactly 0
as absent), record timestamps and emit. -/
def GestureDecoder.onUp (d : GestureDecoder) (padId t : Nat) :
    GestureDecoder × List GestureEvent :=
  let downTs := d.downAt padId
  let d1 := { d with downAt := fun p => if p = padId then none else d.downAt p }
  match downTs with
  | none => (d1, [])
  | some ts =>
    if t - ts < d.bounceMs then (d1, [])
    else
      match d.longTimers padId with
      | none => (d1, [])
      | some _ =>
        let d2 := { d1 with longTimers := fun p => if p = padId then none else d1.longTimers p }
        if 0 < d.cooldownMs ∧ t - ((d.lastEmitByPad padId).getD 0) < d.cooldownMs then
          (d2, [])
        else
          let lastUp := (d.lastUpByPad padId).getD 0
          ({ d2 with
              lastUpByPad := fun p => if p = padId then some t else d2.lastUpByPad p
              lastEmitByPad := fun p => if p = padId then some t else d2.lastEmitByPad p },
            [⟨padId, if lastUp ≠ 0 ∧ t - lastUp ≤ d.doubleTapMs then .DoubleTap
                     else .SinglePress⟩])

/-- cancelPad: clear the timer and down timestamp of one pad, keeping the
lastUp and lastEmit memory. -/
def GestureDecoder.cancelPad (d : GestureDecoder) (padId : Nat) : GestureDecoder :=
  { d with
    longTimers := fun p => if p = padId then none else d.longTimers p
    downAt := fun p => if p = padId then none else d.downAt p }

/-- reset: clear all four maps for every pad. -/
def GestureDecoder.reset (d : GestureDecoder) : GestureDecoder :=
  { d with
    longTimers := fun _ => none
    lastUpByPad := fun _ => none
    lastEmitByPad := fun _ => none
    downAt := fun _ => none }

/-- Raw pad signals delivered by the device port. -/
inductive PadSignal where
  | down
  | up
deriving DecidableEq, Repr

/-- Handle one timestamped raw signal for a pad: a due long-press timer
for that pad fires first (the event loop runs the earlier-due timer
callback before the later event handler), then the signal is decoded. -/
def GestureDecoder.stepTimed (d : GestureDecoder) (padId t : Nat) (s : PadSignal) :
    GestureDecoder × List GestureEvent :=
  let fired := d.fireLongTimer padId t
  match s with
  | .down => (fired.1.onDown padId t, fired.2)
  | .up =>
    let r := fired.1.onUp padId t
    (r.1, fired.2 ++ r.2)

/-- Run a time-ordered trace of raw signals for one pad, collecting the
emitted events. -/
def GestureDecoder.runTrace (d : GestureDecoder) (padId : Nat) :
    List (Nat × PadSignal) → GestureDecoder × List GestureEvent
  | [] => (d, [])
  | (t, s) :: rest =>
    ((d.stepTimed padId t s).1.runTrace padId rest |>.1,
      (d.stepTimed padId t s).2 ++ ((d.stepTimed padId t s).1.runTrace padId rest).2)

/-!
## State-sync loop (state-sync source file)

One tick is modelled functionally: the configured groups, the busy
predicate observed at this tick, the forced (poked) pads and the bulk
query results are inputs; the outputs are the new loop state and the trace
of setPad calls the tick issues.
-/

/-- Bulk query payload for one target, all fields optional (the service
must tolerate partial data).  Counts that arrive as non-finite numbers are
modelled as absent, which is how Number.isFinite treats them. -/
structure AppInfo where
  running : Option Bool
  focused : Option Bool
  windowCount : Option Nat
  minimizedCount : Option Nat
  visibleCount : Option Nat
  allMinimized : Option Bool
  hasVisibleWindows : Option Bool
deriving DecidableEq, Repr

/-- A wholly absent payload (null or empty object). -/
def nullInfo : AppInfo := ⟨none, none, none, none, none, none, none⟩

/-- The fallback used for a target missing from the bulk reply. -/
def notRunningInfo : AppInfo := { nullInfo with running := some false }

/-- The allMin const of decideState: the explicit allMinimized flag when
present, else wc > 0 and a present minimizedCount equal to wc. -/
def effAllMin (info : AppInfo) : Bool :=
  match info.allMinimized with
  | some b => b
  | none =>
    match info.minimizedCount with
    | some m => decide (0 < info.windowCount.getD 0) && decide (m = info.windowCount.getD 0)
    | none => false

/-- The hasVisible const of decideState: the explicit hasVisibleWindows
flag when present, else a present visibleCount compared with 0, else
wc > 0 and not allMin. -/
def effHasVisible (info : AppInfo) : Bool :=
  match info.hasVisibleWindows with
  | some b => b
  | none =>
    match info.visibleCount with
    | some v => decide (0 < v)
    | none => decide (0 < info.windowCount.getD 0) && !(effAllMin info)

/-- decideState from the state-sync source: not running wins, then all
minimized, then visible-or-any-window running (focused or background),
else stopped. -/
def decideState (info : AppInfo) : LedState :=
  if !(info.running.getD false) then .ASSIGNED_STOPPED
  else if effAllMin info then .MINIMIZED
  else if effHasVisible info || decide (0 < info.windowCount.getD 0) then
    if info.focused.getD false then .RUNNING_FOCUSED else .RUNNING_BACKGROUND
  else .ASSIGNED_STOPPED

/-- Query targets (bundle identifiers). -/
abbrev Target := String

/-- Persistent loop state: the dedup cache of last painted colors and the
set of pads poked since the previous tick. -/
structure SyncState where
  lastColorByPad : Nat → Option Color
  forcedPads : List Nat

/-- The busy filter of one tick: keep the pads that were poked or are not
busy. -/
def tickFreePads (busy : Nat → Bool) (forced : List Nat) (pads : List Nat) : List Nat :=
  pads.filter (fun p => forced.contains p || !busy p)

/-- The active groups of one tick: apply the busy filter per group and
drop groups left without pads. -/
def tickActiveGroups (groups : List (Target × List Nat)) (busy : Nat → Bool)
    (forced : List Nat) : List (Target × List Nat) :=
  (groups.map (fun g => (g.1, tickFreePads busy forced g.2))).filter (fun g => !g.2.isEmpty)

/-- The colors a successful tick schedules: for each active group, the
color of the decided state of its reply (or of the not-running fallback),
for every pad of the group. -/
def tickPaintList (ag : List (Target × List Nat)) (infos : Target → Option AppInfo) :
    List (Nat × Color) :=
  ag.flatMap (fun g =>
    g.2.map (fun p => (p, stateToColor (decideState ((infos g.1).getD notRunningInfo)))))

/-- One successful tick: with no configured groups the tick only
reschedules (forced pads are kept, nothing painted); otherwise the forced
set is consumed, and the schedule is painted through setIfChanged. -/
def runTickOk (groups : List (Target × List Nat)) (busy : Nat → Bool)
    (st : SyncState) (infos : Target → Option AppInfo) :
    SyncState × List (Nat × Color) :=
  if groups.isEmpty then (st, [])
  else
    ({ lastColorByPad :=
        (dedupRun st.lastColorByPad (tickPaintList (tickActiveGroups groups busy st.forcedPads) infos)).1,
       forcedPads := [] },
      (dedupRun st.lastColorByPad (tickPaintList (tickActiveGroups groups busy st.forcedPads) infos)).2)

/-- The failure branch of a tick: paint the ERROR color on every mapped
pad that is not busy, through the same setIfChanged cache.  The forced set
was already consumed before the query. -/
def runTickErr (padsMapped : List Nat) (busy : Nat → Bool) (st : SyncState) :
    SyncState × List (Nat × Color) :=
  ({ lastColorByPad :=
      (dedupRun st.lastColorByPad
        ((padsMapped.filter (fun p => !busy p)).map (fun p => (p, LedStateColors .ERROR)))).1,
     forcedPads := [] },
    (dedupRun st.lastColorByPad
      ((padsMapped.filter (fun p => !busy p)).map (fun p => (p, LedStateColors .ERROR)))).2)

/-!
## Helper lemmas
-/

theorem writesTo_nil {α : Type} (q : Nat) : writesTo q ([] : List (Nat × α)) = [] := rfl

theorem writesTo_cons {α : Type} (q p : Nat) (c : α) (rest : List (Nat × α)) :
    writesTo q ((p, c) :: rest) =
      if p = q then c :: writesTo q rest else writesTo q rest := by
  by_cases h : p = q
  · subst h
    simp [writesTo, List.filter_cons]
  · simp [writesTo, List.filter_cons, h]

theorem writesTo_append {α : Type} (q : Nat) (l₁ l₂ : List (Nat × α)) :
    writesTo q (l₁ ++ l₂) = writesTo q l₁ ++ writesTo q l₂ := by
  simp [writesTo, List.filter_append]

theorem writesTo_map_const {α : Type} (q : Nat) (c : α) (pads : List Nat) :
    writesTo q (pads.map (fun id => (id, c))) = List.replicate (pads.count q) c := by
  induction pads with
  | nil => rfl
  | cons p rest ih =>
    by_cases h : p = q
    · subst h
      simp [writesTo_cons, ih, List.count_cons, List.replicate_succ]
    · simp [writesTo_cons, h, ih, List.count_cons]

/-- Per-pad view of the cache filter: the values issued to one pad are the
values scheduled for that pad, destuttered against the cached value. -/
theorem dedupRun_writesTo {α : Type} [DecidableEq α]
    (last : Nat → Option α) (ws : List (Nat × α)) (q : Nat) :
    writesTo q (dedupRun last ws).2 = dedupAgainst (last q) (writesTo q ws) := by
  induction ws generalizing last with
  | nil => simp [dedupRun, writesTo_nil, dedupAgainst]
  | cons w rest ih =>
    obtain ⟨p, c⟩ := w
    by_cases hc : last p = some c
    · rw [show dedupRun last ((p, c) :: rest) = dedupRun last rest by
        simp [dedupRun, hc]]
      rw [ih last, writesTo_cons]
      by_cases hpq : p = q
      · subst hpq
        rw [if_pos rfl]
        simp [dedupAgainst, hc]
      · rw [if_neg hpq]
    · rw [show dedupRun last ((p, c) :: rest) =
          ((dedupRun (fun r => if r = p then some c else last r) rest).1,
            (p, c) :: (dedupRun (fun r => if r = p then some c else last r) rest).2) by
        simp [dedupRun, hc]]
      by_cases hpq : p = q
      · subst hpq
        rw [writesTo_cons, if_pos rfl, ih, writesTo_cons, if_pos rfl]
        simp [dedupAgainst, hc]
      · rw [writesTo_cons, if_neg hpq, ih, writesTo_cons, if_neg hpq]
        congr 1
        simp [Ne.symm hpq]

theorem dedupAgainst_chain_some {α : Type} [DecidableEq α] (a : α) (l : List α) :
    List.Chain Ne a (dedupAgainst (some a) l) := by
  induction l generalizing a with
  | nil => exact List.Chain.nil
  | cons c rest ih =>
    by_cases h : a = c
    · subst h
      simpa [dedupAgainst] using ih a
    · rw [show dedupAgainst (some a) (c :: rest) = c :: dedupAgainst (some c) rest by
        simp [dedupAgainst, h]]
      exact List.Chain.cons h (ih c)

/-- The issued values for a pad never repeat consecutively. -/
theorem dedupAgainst_chain' {α : Type} [DecidableEq α] (o : Option α) (l : List α) :
    List.Chain' Ne (dedupAgainst o l) := by
  induction l generalizing o with
  | nil => exact trivial
  | cons c rest ih =>
    by_cases h : o = some c
    · rw [show dedupAgainst o (c :: rest) = dedupAgainst o rest by simp [dedupAgainst, h]]
      exact ih o
    · rw [show dedupAgainst o (c :: rest) = c :: dedupAgainst (some c) rest by
        simp [dedupAgainst, h]]
      exact dedupAgainst_chain_some c rest

theorem dedupAgainst_length_le {α : Type} [DecidableEq α] (o : Option α) (l : List α) :
    (dedupAgainst o l).length ≤ l.length := by
  induction l generalizing o with
  | nil => simp [dedupAgainst]
  | cons c rest ih =>
    by_cases h : o = some c
    · rw [show dedupAgainst o (c :: rest) = dedupAgainst o rest by simp [dedupAgainst, h]]
      exact (ih o).trans (by simp)
    · rw [show dedupAgainst o (c :: rest) = c :: dedupAgainst (some c) rest by
        simp [dedupAgainst, h]]
      simpa using ih (some c)

theorem dedupRun_mem {α : Type} [DecidableEq α]
    (last : Nat → Option α) (ws : List (Nat × α)) (w : Nat × α)
    (hw : w ∈ (dedupRun last ws).2) : w ∈ ws := by
  induction ws generalizing last with
  | nil => simp [dedupRun] at hw
  | cons x rest ih =>
    obtain ⟨p, c⟩ := x
    by_cases hc : last p = some c
    · rw [show dedupRun last ((p, c) :: rest) = dedupRun last rest by
        simp [dedupRun, hc]] at hw
      exact List.mem_cons_of_mem _ (ih last hw)
    · rw [show dedupRun last ((p, c) :: rest) =
          ((dedupRun (fun r => if r = p then some c else last r) rest).1,
            (p, c) :: (dedupRun (fun r => if r = p then some c else last r) rest).2) by
        simp [dedupRun, hc]] at hw
      rcases List.mem_cons.mp hw with h | h

      · exact h ▸ List.mem_cons_self _ _
      · exact List.mem_cons_of_mem _ (ih _ h)

theorem dedupRun_chain' {α : Type} [DecidableEq α]
    (last : Nat → Option α) (ws : List (Nat × α)) (q : Nat) :
    List.Chain' Ne (writesTo q (dedupRun last ws).2) := by
  rw [dedupRun_writesTo]
  exact dedupAgainst_chain' _ _

theorem mem_insertSorted {a q : Nat} {l : List Nat} :
    q ∈ insertSorted a l ↔ q = a ∨ q ∈ l := by
  induction l with
  | nil => simp [insertSorted]
  | cons b l ih =>
    by_cases h : a ≤ b
    · simp [insertSorted, h]
    · simp [insertSorted, h, ih]
      tauto

theorem mem_sortPads {q : Nat} {l : List Nat} : q ∈ sortPads l ↔ q ∈ l := by
  induction l with
  | nil => simp [sortPads]
  | cons a l ih => simp [sortPads, mem_insertSorted, ih]

theorem runWrites_wrapped (fails : Nat → Bool) (ws : List (Nat × Color)) (i : Nat) :
    runWrites true fails ws i = (ws, false) := by
  induction ws generalizing i with
  | nil => rfl
  | cons w rest ih => simp [runWrites, ih]

theorem runWrites_nofail (fails : Nat → Bool) (h : ∀ i, fails i = false)
    (ws : List (Nat × Color)) (i : Nat) : runWrites false fails ws i = (ws, false) := by
  induction ws generalizing i with
  | nil => rfl
  | cons w rest ih => simp [runWrites, h i, ih]

/-!
## Claims
-/

/-- Claim C1, amended.  The dedup law does not hold at the boundary
between the animations and setPad: the shutdown ripple and the blink can
pass the same color twice in a row (counterexample below).  What the code
guarantees is: each boot wave phase dedupes its own writes through the
phase-local cache, every write list pushed through such a cache (the
setIfChanged cache of the sync loop included) is consecutive-duplicate
free per button, and setPad of the device port dedupes internally, so the
velocity sequence actually sent to the hardware for a button never
contains two consecutive identical values. -/
theorem C1_animation_dedup_amended :
    (∀ (dimCol brightCol : Color) (periodMs staggerMs : Nat) (pads ticks : List Nat)
        (q : Nat),
      List.Chain' (· ≠ ·)
        (writesTo q (runPhaseWrites dimCol brightCol periodMs staggerMs pads ticks)))
  ∧ (∀ (lastVel : Nat → Option Nat) (ws : List (Nat × Color)) (q : Nat),
      List.Chain' (· ≠ ·) (writesTo q (portSetPadRun lastVel ws).2))
  ∧ (∀ (last : Nat → Option Color) (ws : List (Nat × Color)) (q : Nat),
      List.Chain' (· ≠ ·) (writesTo q (dedupRun last ws).2)) := by
  refine ⟨?_, ?_, ?_⟩
  · intro dimCol brightCol periodMs staggerMs pads ticks q
    exact dedupRun_chain' _ _ q
  · intro lastVel ws q
    exact dedupRun_chain' _ _ q
  · intro last ws q
    exact dedupRun_chain' _ _ q

/-- Claim C1 counterexample: in the shutdown ripple over the single pad 0
with the default options, pad 0 is turned off when it leaves the trail
window and the final cleanup sweep passes off to setPad again right after,
so the sequence of colors passed to setPad for pad 0 repeats off twice in
a row. -/
theorem C1_shutdown_consecutive_off :
    ¬ List.Chain' (· ≠ ·) (writesTo 0 (playShutdownAnimationWrites [0] 4 2)) := by
  have h : writesTo 0 (playShutdownAnimationWrites [0] 4 2)
      = [COLORS.yellowBright, COLORS.yellow, COLORS.amber, COLORS.dimRed, COLORS.off,
         COLORS.yellowBright, COLORS.yellow, COLORS.amber, COLORS.dimRed, COLORS.off,
         COLORS.off] := by decide
  rw [h]
  simp [List.chain'_cons, COLORS.off, COLORS.yellowBright, COLORS.yellow, COLORS.amber,
    COLORS.dimRed]

/-- Claim C2, amended.  Boot and blink do guarantee, even when an error
interrupts them (any truncation of the boot body, any number of blink
ticks before cancellation), that the last write issued to every target
button is off: boot runs its cleanup in a finally block and cancel of the
blink always writes off.  The shutdown ripple guarantees it only on an
error-free run: it has no try/finally, so its final off sweep is reached
only when no write throws (counterexample below). -/
theorem C2_cleanup_last_write_off_amended :
    (∀ (pads ticksA ticksB : List Nat) (truncAt q : Nat), q ∈ pads →
      (writesTo q (playBootAnimationWritesTrunc pads ticksA ticksB truncAt)).getLast?
        = some COLORS.off)
  ∧ (∀ (note : Nat) (color : Color) (numTicks : Nat),
      (writesTo note (blinkQuitWrites note color numTicks)).getLast? = some COLORS.off)
  ∧ (∀ (pads : List Nat) (trail passes q : Nat), q ∈ pads →
      (writesTo q (playShutdownAnimationWrites pads trail passes)).getLast?
        = some COLORS.off) := by
  refine ⟨?_, ?_, ?_⟩
  · intro pads ticksA ticksB truncAt q hq
    have hne : pads.isEmpty = false := by
      cases pads
      · cases hq
      · rfl
    have hcount : 0 < pads.count q := List.count_pos_iff.mpr hq
    rw [playBootAnimationWritesTrunc, hne]
    simp only [Bool.false_eq_true, if_false, writesTo_append]
    rw [show writesTo q (bootCleanupWrites pads) = List.replicate (pads.count q) COLORS.off
        from writesTo_map_const q COLORS.off pads]
    rw [List.getLast?_append_of_ne_nil _ (by simp [Nat.pos_iff_ne_zero.mp hcount])]
    simp [List.getLast?_replicate, Nat.pos_iff_ne_zero.mp hcount]
  · intro note color numTicks
    rw [blinkQuitWrites, writesTo_append]
    rw [show writesTo note [(note, COLORS.off)] = [COLORS.off] by
      rw [writesTo_cons, if_pos rfl, writesTo_nil]]
    rw [List.getLast?_append_of_ne_nil _ (by simp)]
    rfl
  · intro pads trail passes q hq
    have hne : pads.isEmpty = false := by
      cases pads
      · cases hq
      · rfl
    have hq2 : q ∈ sortPads pads := mem_sortPads.mpr hq
    have hcount : 0 < (sortPads pads).count q := List.count_pos_iff.mpr hq2
    rw [playShutdownAnimationWrites, hne]
    simp only [Bool.false_eq_true, if_false, writesTo_append]
    rw [show writesTo q ((sortPads pads).map (fun id => (id, COLORS.off)))
          = List.replicate ((sortPads pads).count q) COLORS.off
        from writesTo_map_const q COLORS.off _]
    rw [List.getLast?_append_of_ne_nil _ (by simp [Nat.pos_iff_ne_zero.mp hcount])]
    simp [List.getLast?_replicate, Nat.pos_iff_ne_zero.mp hcount]

/-- Claim C2 witness: concrete instances of the three amended guarantees,
with the membership hypotheses discharged on explicit inputs. -/
theorem C2_cleanup_witness :
    ((0 : Nat) ∈ [0, 1]
      ∧ (writesTo 0 (playBootAnimationWritesTrunc [0, 1] [0, 45] [0, 45] 3)).getLast?
          = some COLORS.off)
  ∧ ((writesTo 7 (blinkQuitWrites 7 COLORS.red 5)).getLast? = some COLORS.off)
  ∧ ((1 : Nat) ∈ [0, 1]
      ∧ (writesTo 1 (playShutdownAnimationWrites [0, 1] 4 2)).getLast? = some COLORS.off) :=
  ⟨⟨by decide,
      C2_cleanup_last_write_off_amended.1 [0, 1] [0, 45] [0, 45] 3 0 (by decide)⟩,
    C2_cleanup_last_write_off_amended.2.1 7 COLORS.red 5,
    ⟨by decide,
      C2_cleanup_last_write_off_amended.2.2 [0, 1] 4 2 1 (by decide)⟩⟩

/-- Claim C2 counterexample: if the second setPad call of the shutdown
ripple over pad 0 throws, the animation aborts, no cleanup runs, and the
last write issued to pad 0 is yellow, not off — the claimed always-run
cleanup step does not exist for the shutdown animation. -/
theorem C2_shutdown_error_skips_cleanup :
    (writesTo 0 (playShutdownAnimationRun [0] 4 2 (fun i => decide (i = 1))).1).getLast?
      ≠ some COLORS.off := by
  decide

/-- Claim C3, amended.  In the boot animation and in blink every per-pad
setPad call is individually wrapped in try/catch (and the dedup cache is
updated before the call), so under any set of failing writes all scheduled
writes are still issued and no error reaches the caller.  The shutdown
ripple is the exception: its writes are not wrapped, so it completes all
writes only when none fails (counterexample below shows a single failure
aborting it). -/
theorem C3_wrapped_writes_amended :
    (∀ (fails : Nat → Bool) (ws : List (Nat × Color)) (i : Nat),
      runWrites true fails ws i = (ws, false))
  ∧ (∀ (pads ticksA ticksB : List Nat) (fails : Nat → Bool),
      playBootAnimationRun pads ticksA ticksB fails
        = (playBootAnimationWrites pads ticksA ticksB, false))
  ∧ (∀ (note : Nat) (color : Color) (numTicks : Nat) (fails : Nat → Bool),
      blinkQuitRun note color numTicks fails = (blinkQuitWrites note color numTicks, false))
  ∧ (∀ (pads : List Nat) (trail passes : Nat) (fails : Nat → Bool),
      (∀ i, fails i = false) →
      playShutdownAnimationRun pads trail passes fails
        = (playShutdownAnimationWrites pads trail passes, false)) := by
  refine ⟨runWrites_wrapped, ?_, ?_, ?_⟩
  · intro pads ticksA ticksB fails
    exact runWrites_wrapped fails _ 0
  · intro note color numTicks fails
    exact runWrites_wrapped fails _ 0
  · intro pads trail passes fails h
    exact runWrites_nofail fails h _ 0

/-- Claim C3 witness: the shutdown conjunct applied to a concrete run with
no failing write, its hypothesis discharged pointwise. -/
theorem C3_wrapped_writes_witness :
    playShutdownAnimationRun [0] 4 2 (fun _ => false)
      = (playShutdownAnimationWrites [0] 4 2, false) :=
  C3_wrapped_writes_amended.2.2.2 [0] 4 2 (fun _ => false) (fun _ => rfl)

/-- Claim C3 counterexample: with two pads and the very first ripple write
throwing, the shutdown animation reports the error to its caller (the
rejected promise, caught only in main.js) and issues strictly fewer writes
than scheduled — the remaining writes to the other pad are never made. -/
theorem C3_shutdown_write_error_aborts :
    (playShutdownAnimationRun [0, 1] 4 1 (fun i => decide (i = 0))).2 = true
  ∧ (playShutdownAnimationRun [0, 1] 4 1 (fun i => decide (i = 0))).1.length
      < (playShutdownAnimationWrites [0, 1] 4 1).length := by
  decide

/-- Claim C4, amended: for a positive duration below 2 to the 31 (inside
the int32 range, where ms | 0 is the identity) the stored deadline is
now + ms, isBusy is true at every monotonic instant strictly before the
deadline and false at every instant after it, and markBusy with a
non-positive duration leaves the registry unchanged.  For a duration of
2 to the 31 or more the int32 wrap applies and the stored window is not
now + ms (counterexample below). -/
theorem C4_busy_registry (m : BusyMap) (tMark pad : Nat) (ms : Int) (tCheck : Nat) :
    (0 < ms → ms < 2 ^ 31 →
      markBusy m tMark pad ms pad = some (tMark + ms.toNat)
        ∧ (((tCheck : Int) < (tMark : Int) + ms →
            (isBusy (markBusy m tMark pad ms) tCheck pad).1 = true)
        ∧ ((tMark : Int) + ms < (tCheck : Int) →
            (isBusy (markBusy m tMark pad ms) tCheck pad).1 = false)))
  ∧ (ms ≤ 0 → markBusy m tMark pad ms = m) := by
  constructor
  · intro hpos hrange
    have h32 : toInt32 ms = ms := by
      unfold toInt32
      omega
    have hmax : max 1 (toInt32 ms) = ms := by
      rw [h32]
      omega
    have hdeadline : markBusy m tMark pad ms pad = some (tMark + ms.toNat) := by
      simp [markBusy, hpos, hmax]
    refine ⟨hdeadline, ?_, ?_⟩
    · intro hlt
      have hnot : ¬ (tMark + ms.toNat < tCheck) := by omega
      simp [isBusy, hdeadline, hnot]
    · intro hgt
      have hyes : tMark + ms.toNat < tCheck := by omega
      simp [isBusy, hdeadline, hyes]
  · intro hnp
    unfold markBusy
    rw [if_neg (show ¬ (0 : Int) < ms by omega)]

/-- Claim C4 witness: a concrete 500 ms busy window marked at time 100 is
busy at 400, not busy at 700, and a negative duration is a no-op. -/
theorem C4_busy_registry_witness :
    ((0 : Int) < 500 ∧ (500 : Int) < 2 ^ 31
      ∧ markBusy (fun _ => none) 100 5 500 5 = some (100 + (500 : Int).toNat)
      ∧ (isBusy (markBusy (fun _ => none) 100 5 500) 400 5).1 = true
      ∧ (isBusy (markBusy (fun _ => none) 100 5 500) 700 5).1 = false)
  ∧ ((-3 : Int) ≤ 0 ∧ markBusy (fun _ => none) 100 5 (-3) = (fun _ => none)) :=
  ⟨⟨by decide, by decide,
      ((C4_busy_registry (fun _ => none) 100 5 500 400).1 (by decide) (by decide)).1,
      ((C4_busy_registry (fun _ => none) 100 5 500 400).1 (by decide) (by decide)).2.1
        (by decide),
      ((C4_busy_registry (fun _ => none) 100 5 500 700).1 (by decide) (by decide)).2.2
        (by decide)⟩,
    by decide,
    (C4_busy_registry (fun _ => none) 100 5 (-3) 0).2 (by decide)⟩

/-- Claim C4 counterexample: marking pad 5 busy at time 100 for
ms = 2 to the 31 (a positive duration) wraps to minus 2 to the 31, the
max clamps it to 1, and the registry stores a deadline of 101 instead of
100 + ms; at time 200 — long before ms milliseconds have elapsed — the
pad is already reported not busy, refuting the claim that the stored
deadline is now + ms and that isBusy stays true until then. -/
theorem C4_busy_wrap_counterexample :
    (0 : Int) < 2 ^ 31
  ∧ markBusy (fun _ => none) 100 5 (2 ^ 31) 5 = some 101
  ∧ (200 : Int) < (100 : Int) + 2 ^ 31
  ∧ (isBusy (markBusy (fun _ => none) 100 5 (2 ^ 31)) 200 5).1 = false := by
  refine ⟨by decide, ?_, by decide, ?_⟩
  · decide
  · decide

/-- Claim C5: a down at time a with the pad held until at least a plus
longPressMs makes the long-press timer fire and emit exactly one
LongPress, and the later up emits nothing (the timer is gone, so the
release is discarded), so the full trace emits exactly the one event. -/
theorem C5_long_press_single_event (dt lp bn cd pad a b : Nat)
    (hbl : bn ≤ lp) (hheld : a + lp ≤ b) :
    ((GestureDecoder.init dt lp bn cd).runTrace pad [(a, .down), (b, .up)]).2
      = [⟨pad, .LongPress⟩] := by
  have hnb : ¬ (b - a < bn) := by omega
  simp [GestureDecoder.runTrace, GestureDecoder.stepTimed, GestureDecoder.fireLongTimer,
    GestureDecoder.onDown, GestureDecoder.onUp, GestureDecoder.init, hheld, hnb]

/-- Claim C5 witness: pad 5 held from 100 to 1000 under the default
tunables emits exactly one LongPress. -/
theorem C5_long_press_witness :
    28 ≤ 800 ∧ 100 + 800 ≤ 1000
      ∧ ((GestureDecoder.init 480 800 28 0).runTrace 5 [(100, .down), (1000, .up)]).2
          = [⟨5, .LongPress⟩] :=
  ⟨by decide, by decide,
    C5_long_press_single_event 480 800 28 0 5 100 1000 (by decide) (by decide)⟩

/-- Claim C6: two valid press/release pairs (held past the bounce filter,
released before the long-press deadline) whose releases are within
doubleTapMs of each other, with the cooldown disabled as in the defaults,
emit exactly one SinglePress (for the first release) followed by exactly
one DoubleTap — not two SinglePress; and on any release that passes the
filters, DoubleTap is chosen precisely when a prior (positive-time)
release of the same pad lies within doubleTapMs, else SinglePress. -/
theorem C6_double_tap (dt lp bn cd pad t1 t2 t3 t4 : Nat) :
    (0 < t1 → t1 + bn ≤ t2 → t2 < t1 + lp → t2 ≤ t3 → t3 + bn ≤ t4 → t4 < t3 + lp →
      t4 - t2 ≤ dt → cd = 0 →
      ((GestureDecoder.init dt lp bn cd).runTrace pad
          [(t1, .down), (t2, .up), (t3, .down), (t4, .up)]).2
        = [⟨pad, .SinglePress⟩, ⟨pad, .DoubleTap⟩])
  ∧ (∀ (g : GestureDecoder) (t ts u : Nat),
      g.downAt pad = some ts → ¬ (t - ts < g.bounceMs) →
      (∃ dl, g.longTimers pad = some dl) → g.cooldownMs = 0 →
      g.lastUpByPad pad = some u → 0 < u → t - u ≤ g.doubleTapMs →
      (g.onUp pad t).2 = [⟨pad, .DoubleTap⟩])
  ∧ (∀ (g : GestureDecoder) (t ts u : Nat),
      g.downAt pad = some ts → ¬ (t - ts < g.bounceMs) →
      (∃ dl, g.longTimers pad = some dl) → g.cooldownMs = 0 →
      g.lastUpByPad pad = some u → g.doubleTapMs < t - u →
      (g.onUp pad t).2 = [⟨pad, .SinglePress⟩])
  ∧ (∀ (g : GestureDecoder) (t ts : Nat),
      g.downAt pad = some ts → ¬ (t - ts < g.bounceMs) →
      (∃ dl, g.longTimers pad = some dl) → g.cooldownMs = 0 →
      g.lastUpByPad pad = none →
      (g.onUp pad t).2 = [⟨pad, .SinglePress⟩]) := by
  refine ⟨?_, ?_, ?_, ?_⟩
  · intro h1 h2 h3 h4 h5 h6 h7 hcd
    subst hcd
    have hb1 : ¬ (t2 - t1 < bn) := by omega
    have hb2 : ¬ (t4 - t3 < bn) := by omega
    have hl1 : ¬ (t1 + lp ≤ t2) := by omega
    have hl2 : ¬ (t3 + lp ≤ t4) := by omega
    have ht2 : t2 ≠ 0 := by omega
    simp [GestureDecoder.runTrace, GestureDecoder.stepTimed, GestureDecoder.fireLongTimer,
      GestureDecoder.onDown, GestureDecoder.onUp, GestureDecoder.init,
      hb1, hb2, hl1, hl2, ht2, h7]
  · intro g t ts u hdown hb htimer hcd hu hupos hwin
    obtain ⟨dl, hdl⟩ := htimer
    simp [GestureDecoder.onUp, hdown, hb, hdl, hcd, hu, Nat.pos_iff_ne_zero.mp hupos, hwin]
  · intro g t ts u hdown hb htimer hcd hu hfar
    obtain ⟨dl, hdl⟩ := htimer
    have hnw : ¬ (t - u ≤ g.doubleTapMs) := by omega
    simp [GestureDecoder.onUp, hdown, hb, hdl, hcd, hu, hnw]
  · intro g t ts hdown hb htimer hcd hu
    obtain ⟨dl, hdl⟩ := htimer
    simp [GestureDecoder.onUp, hdown, hb, hdl, hcd, hu]

/-- Claim C6 witness: the concrete double-tap trace and the release
decision rule applied at explicit states. -/
theorem C6_double_tap_witness :
    ((GestureDecoder.init 480 800 28 0).runTrace 5
        [(100, .down), (200, .up), (300, .down), (400, .up)]).2
      = [⟨5, .SinglePress⟩, ⟨5, .DoubleTap⟩] :=
  (C6_double_tap 480 800 28 0 5 100 200 300 400).1 (by decide) (by decide) (by decide)
    (by decide) (by decide) (by decide) (by decide) rfl

/-- Claim C9: cancelPad clears exactly the long-press timer and the down
timestamp of the given pad, leaving the lastUp (double-tap memory) and
lastEmit maps untouched and other pads unaffected, while reset clears all
four maps for every pad. -/
theorem C9_cancel_vs_reset (g : GestureDecoder) (pad q : Nat) :
    ((g.cancelPad pad).longTimers q = if q = pad then none else g.longTimers q)
  ∧ ((g.cancelPad pad).downAt q = if q = pad then none else g.downAt q)
  ∧ (g.cancelPad pad).lastUpByPad q = g.lastUpByPad q
  ∧ (g.cancelPad pad).lastEmitByPad q = g.lastEmitByPad q
  ∧ g.reset.longTimers q = none
  ∧ g.reset.downAt q = none
  ∧ g.reset.lastUpByPad q = none
  ∧ g.reset.lastEmitByPad q = none :=
  ⟨rfl, rfl, rfl, rfl, rfl, rfl, rfl, rfl⟩

/-- Claim C7: the decision function of the sync loop maps a non-running
(or missing) status to ASSIGNED_STOPPED, an all-minimized running status
to MINIMIZED, a running status with visible windows or any window to
RUNNING_FOCUSED when focused and RUNNING_BACKGROUND otherwise, and
everything else to ASSIGNED_STOPPED; absent fields default to not running
and zero counts, and the fully absent payload decides ASSIGNED_STOPPED
(the function is total, so it cannot throw). -/
theorem C7_decide_state_branches :
    decideState nullInfo = .ASSIGNED_STOPPED
  ∧ (∀ info : AppInfo, info.running.getD false = false →
      decideState info = .ASSIGNED_STOPPED)
  ∧ (∀ info : AppInfo, info.running.getD false = true → effAllMin info = true →
      decideState info = .MINIMIZED)
  ∧ (∀ info : AppInfo, info.running.getD false = true → effAllMin info = false →
      (effHasVisible info = true ∨ 0 < info.windowCount.getD 0) →
      decideState info
        = if info.focused.getD false then .RUNNING_FOCUSED else .RUNNING_BACKGROUND)
  ∧ (∀ info : AppInfo, info.running.getD false = true → effAllMin info = false →
      effHasVisible info = false → info.windowCount.getD 0 = 0 →
      decideState info = .ASSIGNED_STOPPED) := by
  refine ⟨by decide, ?_, ?_, ?_, ?_⟩
  · intro info h
    simp [decideState, h]
  · intro info h1 h2
    simp [decideState, h1, h2]
  · intro info h1 h2 h3
    rcases h3 with h3 | h3 <;> simp [decideState, h1, h2, h3]
  · intro info h1 h2 h3 h4
    simp [decideState, h1, h2, h3, h4]

/-- Claim C7 witness: the four branches applied at concrete payloads,
including the fully absent one. -/
theorem C7_decide_state_witness :
    decideState ⟨some true, none, none, none, none, some true, none⟩ = .MINIMIZED
  ∧ decideState ⟨some true, some true, none, none, none, none, some true⟩
      = .RUNNING_FOCUSED
  ∧ decideState notRunningInfo = .ASSIGNED_STOPPED
  ∧ decideState ⟨some true, none, none, none, none, none, none⟩ = .ASSIGNED_STOPPED :=
  ⟨C7_decide_state_branches.2.2.1 _ (by decide) (by decide),
    by
      have h := C7_decide_state_branches.2.2.2.1
        ⟨some true, some true, none, none, none, none, some true⟩
        (by decide) (by decide) (Or.inl (by decide))
      simpa using h,
    C7_decide_state_branches.2.1 _ (by decide),
    C7_decide_state_branches.2.2.2.2 _ (by decide) (by decide) (by decide) (by decide)⟩

theorem writesTo_paintList_length (ag : List (Target × List Nat))
    (infos : Target → Option AppInfo) (p : Nat) :
    (writesTo p (tickPaintList ag infos)).length = (ag.flatMap (fun g => g.2)).count p := by
  induction ag with
  | nil => rfl
  | cons g rest ih =>
    rw [show tickPaintList (g :: rest) infos
        = g.2.map (fun q => (q, stateToColor (decideState ((infos g.1).getD notRunningInfo))))
          ++ tickPaintList rest infos from rfl]
    rw [writesTo_append, List.length_append, writesTo_map_const, List.length_replicate, ih]
    simp [List.count_append]

theorem count_tickActiveGroups_le (groups : List (Target × List Nat)) (busy : Nat → Bool)
    (forced : List Nat) (p : Nat) :
    ((tickActiveGroups groups busy forced).flatMap (fun g => g.2)).count p
      ≤ (groups.flatMap (fun g => g.2)).count p := by
  induction groups with
  | nil => simp [tickActiveGroups]
  | cons g rest ih =>
    by_cases he : (tickFreePads busy forced g.2).isEmpty
    · rw [show tickActiveGroups (g :: rest) busy forced
          = tickActiveGroups rest busy forced by
        simp [tickActiveGroups, List.filter_cons, he]]
      refine ih.trans ?_
      simp only [List.flatMap_cons, List.count_append]
      omega
    · rw [show tickActiveGroups (g :: rest) busy forced
          = (g.1, tickFreePads busy forced g.2) :: tickActiveGroups rest busy forced by
        simp [tickActiveGroups, List.filter_cons, he]]
      simp only [List.flatMap_cons, List.count_append]
      have h1 : (tickFreePads busy forced g.2).count p ≤ g.2.count p :=
        (List.filter_sublist _).count_le p
      omega

/-- Claim C8: when a busy pad has been poked, the very next tick includes
it (the busy filter is bypassed), the forced set is consumed by that tick,
a later tick while the pad is still busy and not poked again excludes it,
and — as each configured pad belongs to a single group — the tick issues
at most one paint for it (exactly one setIfChanged application, which the
dedup cache may elide). -/
theorem C8_poke_bypass_once (groups : List (Target × List Nat)) (busy busy2 : Nat → Bool)
    (st : SyncState) (infos : Target → Option AppInfo) (p : Nat) (tgt : Target)
    (pads : List Nat) (hg : (tgt, pads) ∈ groups) (hp : p ∈ pads)
    (hforced : p ∈ st.forcedPads) :
    p ∈ tickFreePads busy st.forcedPads pads
  ∧ (runTickOk groups busy st infos).1.forcedPads = []
  ∧ (busy2 p = true →
      p ∉ tickFreePads busy2 (runTickOk groups busy st infos).1.forcedPads pads)
  ∧ ((groups.flatMap (fun g => g.2)).count p ≤ 1 →
      (writesTo p (runTickOk groups busy st infos).2).length ≤ 1) := by
  have hgne : groups.isEmpty = false := by
    cases groups
    · cases hg
    · rfl
  have hforcedEmpty : (runTickOk groups busy st infos).1.forcedPads = [] := by
    simp [runTickOk, hgne]
  refine ⟨?_, hforcedEmpty, ?_, ?_⟩
  · exact List.mem_filter.mpr ⟨hp, by simp [hforced]⟩
  · intro hb2
    rw [hforcedEmpty]
    simp [tickFreePads, List.mem_filter, hb2]
  · intro hcount
    rw [show (runTickOk groups busy st infos).2
        = (dedupRun st.lastColorByPad
            (tickPaintList (tickActiveGroups groups busy st.forcedPads) infos)).2 by
      simp [runTickOk, hgne]]
    rw [dedupRun_writesTo]
    refine (dedupAgainst_length_le _ _).trans ?_
    rw [writesTo_paintList_length]
    exact (count_tickActiveGroups_le groups busy st.forcedPads p).trans hcount

/-- Claim C8 witness: pad 5 busy but poked is included in the tick, the
forced set is consumed, and a later tick with the pad still busy excludes
it; the tick paints it at most once. -/
theorem C8_poke_witness :
    (5 ∈ tickFreePads (fun _ => true) [5] [5]
      ∧ (runTickOk [("a", [5])] (fun _ => true) ⟨fun _ => none, [5]⟩
          (fun _ => none)).1.forcedPads = [])
  ∧ (5 ∉ tickFreePads (fun _ => true)
      (runTickOk [("a", [5])] (fun _ => true) ⟨fun _ => none, [5]⟩
        (fun _ => none)).1.forcedPads [5])
  ∧ (writesTo 5 (runTickOk [("a", [5])] (fun _ => true) ⟨fun _ => none, [5]⟩
      (fun _ => none)).2).length ≤ 1 :=
  ⟨⟨(C8_poke_bypass_once [("a", [5])] (fun _ => true) (fun _ => true)
        ⟨fun _ => none, [5]⟩ (fun _ => none) 5 "a" [5]
        (List.mem_singleton.mpr rfl) (List.mem_singleton.mpr rfl)
        (List.mem_singleton.mpr rfl)).1,
      (C8_poke_bypass_once [("a", [5])] (fun _ => true) (fun _ => true)
        ⟨fun _ => none, [5]⟩ (fun _ => none) 5 "a" [5]
        (List.mem_singleton.mpr rfl) (List.mem_singleton.mpr rfl)
        (List.mem_singleton.mpr rfl)).2.1⟩,
    (C8_poke_bypass_once [("a", [5])] (fun _ => true) (fun _ => true)
      ⟨fun _ => none, [5]⟩ (fun _ => none) 5 "a" [5]
      (List.mem_singleton.mpr rfl) (List.mem_singleton.mpr rfl)
      (List.mem_singleton.mpr rfl)).2.2.1 rfl,
    (C8_poke_bypass_once [("a", [5])] (fun _ => true) (fun _ => true)
      ⟨fun _ => none, [5]⟩ (fun _ => none) 5 "a" [5]
      (List.mem_singleton.mpr rfl) (List.mem_singleton.mpr rfl)
      (List.mem_singleton.mpr rfl)).2.2.2 (by decide)⟩

/-- Claim C10: decideState only ever returns one of the four steady
states, so every color painted by a successful tick is the color of
ASSIGNED_STOPPED, MINIMIZED, RUNNING_BACKGROUND or RUNNING_FOCUSED — in
particular never the ERROR color and never the MINIMIZING color — while
the query-failure branch paints exactly the ERROR color.  The transitional
states LAUNCHING, FOCUSING, MINIMIZING and QUITTING are never produced by
the sync loop. -/
theorem C10_painted_colors :
    (∀ info : AppInfo,
      decideState info = .ASSIGNED_STOPPED ∨ decideState info = .MINIMIZED
        ∨ decideState info = .RUNNING_BACKGROUND ∨ decideState info = .RUNNING_FOCUSED)
  ∧ (∀ (groups : List (Target × List Nat)) (busy : Nat → Bool) (st : SyncState)
        (infos : Target → Option AppInfo) (w : Nat × Color),
      w ∈ (runTickOk groups busy st infos).2 →
      (w.2 = COLORS.dimRed ∨ w.2 = COLORS.amber ∨ w.2 = COLORS.dimGreen
          ∨ w.2 = COLORS.green)
        ∧ w.2 ≠ LedStateColors .ERROR ∧ w.2 ≠ LedStateColors .MINIMIZING)
  ∧ (∀ (padsMapped : List Nat) (busy : Nat → Bool) (st : SyncState) (w : Nat × Color),
      w ∈ (runTickErr padsMapped busy st).2 → w.2 = LedStateColors .ERROR) := by
  have hstates : ∀ info : AppInfo,
      decideState info = .ASSIGNED_STOPPED ∨ decideState info = .MINIMIZED
        ∨ decideState info = .RUNNING_BACKGROUND ∨ decideState info = .RUNNING_FOCUSED := by
    intro info
    unfold decideState
    split
    · tauto
    split
    · tauto
    split
    · split <;> tauto
    · tauto
  refine ⟨hstates, ?_, ?_⟩
  · intro groups busy st infos w hw
    by_cases hge : groups.isEmpty
    · rw [runTickOk, if_pos hge] at hw
      cases hw
    · rw [runTickOk, if_neg hge] at hw
      have hmem := dedupRun_mem _ _ _ hw
      rw [tickPaintList] at hmem
      rw [List.mem_flatMap] at hmem
      obtain ⟨g, _, hmem2⟩ := hmem
      rw [List.mem_map] at hmem2
      obtain ⟨q, _, hweq⟩ := hmem2
      have hcol : w.2 = stateToColor (decideState ((infos g.1).getD notRunningInfo)) := by
        rw [← hweq]
      rcases hstates ((infos g.1).getD notRunningInfo) with h | h | h | h <;>
        rw [hcol, stateToColor, h] <;>
        exact ⟨by simp [LedStateColors, COLORS.dimRed, COLORS.amber, COLORS.dimGreen,
            COLORS.green],
          by simp [LedStateColors, COLORS.dimRed, COLORS.amber, COLORS.dimGreen,
            COLORS.green, COLORS.red, COLORS.yellowBright],
          by simp [LedStateColors, COLORS.dimRed, COLORS.amber, COLORS.dimGreen,
            COLORS.green, COLORS.red, COLORS.yellowBright]⟩
  · intro padsMapped busy st w hw
    have hmem := dedupRun_mem _ _ _ hw
    rw [List.mem_map] at hmem
    obtain ⟨q, _, hweq⟩ := hmem
    rw [← hweq]

/-- Claim C10 witness: the color constraints applied to a concrete write
of a successful tick and to a concrete write of the failure branch. -/
theorem C10_painted_colors_witness :
    ((((0 : Nat), COLORS.dimRed).2 = COLORS.dimRed
        ∨ ((0 : Nat), COLORS.dimRed).2 = COLORS.amber
        ∨ ((0 : Nat), COLORS.dimRed).2 = COLORS.dimGreen
        ∨ ((0 : Nat), COLORS.dimRed).2 = COLORS.green)
      ∧ ((0 : Nat), COLORS.dimRed).2 ≠ LedStateColors .ERROR
      ∧ ((0 : Nat), COLORS.dimRed).2 ≠ LedStateColors .MINIMIZING)
  ∧ ((0 : Nat), LedStateColors LedState.ERROR).2 = LedStateColors .ERROR :=
  ⟨C10_painted_colors.2.1 [("a", [0])] (fun _ => false) ⟨fun _ => none, []⟩
      (fun _ => none) (0, COLORS.dimRed) (by decide),
    C10_painted_colors.2.2 [0] (fun _ => false) ⟨fun _ => none, []⟩
      (0, LedStateColors .ERROR) (by decide)⟩
